import Mathlib

/-!
Verification of the voyager-cli content-generation core: the model mapping
table (`apiModelMapping.ts`), the provider adapters (`apiModelMapping.ts`
ApiContentGenerator, `openaiContentGenerator.ts`, the Anthropic generator),
and the dispatch factory (`contentGenerator.ts`), shallowly embedded in Lean.

JavaScript strings are modelled as Lean `String` (a sequence of characters);
the string primitives used by the source (`slice`, `startsWith`, `trim`,
`Array.join`) are given their JavaScript semantics directly on the character
list so that they evaluate by kernel reduction.  `undefined`/optional values
are modelled with `Option`; JavaScript truthiness tests are spelled out at
each use site.
-/

namespace VoyagerCLI

/-- `charsStartWith pat cs` : the character list `cs` begins with `pat`. -/
def charsStartWith : List Char → List Char → Bool
  | [], _ => true
  | _ :: _, [] => false
  | p :: ps, c :: cs => p == c && charsStartWith ps cs

/-- JavaScript `s.startsWith(pat)`. -/
def jsStartsWith (s pat : String) : Bool :=
  charsStartWith pat.data s.data

/-- JavaScript `s.slice(n)` for a nonnegative start index. -/
def jsSlice (s : String) (n : Nat) : String :=
  ⟨s.data.drop n⟩

/-- JavaScript `s.trim()`: strip leading and trailing whitespace. -/
def jsTrim (s : String) : String :=
  ⟨((s.data.dropWhile Char.isWhitespace).reverse.dropWhile Char.isWhitespace).reverse⟩

/-- JavaScript `arr.join(sep)` on an array of strings. -/
def jsJoin (sep : String) : List String → String
  | [] => ""
  | [s] => s
  | s :: rest => s ++ sep ++ jsJoin sep rest

/-- JavaScript truthiness of an optional string: `undefined` and `""` are
falsy, every other string is truthy. -/
def truthyStr : Option String → Bool
  | none => false
  | some s => s ≠ ""

/-- JavaScript `o || dflt` for an optional string with a string default:
`undefined` and `""` fall back to the default. -/
def orDefaultStr (o : Option String) (dflt : String) : String :=
  match o with
  | some s => if s = "" then dflt else s
  | none => dflt

/-! ## Model mapping table (`apiModelMapping.ts`) -/

inductive Provider
  | openai
  | anthropic
  | google
  deriving DecidableEq, Repr

structure ModelMapping where
  internal : String
  api : String
  provider : Provider
  deriving DecidableEq, Repr

/-- `API_MODEL_MAPPINGS`, entry for entry in source order. -/
def API_MODEL_MAPPINGS : List ModelMapping := [
  -- OpenAI models
  { internal := "gpt-4o", api := "gpt-4o", provider := .openai },
  { internal := "gpt-4o-mini", api := "gpt-4o-mini", provider := .openai },
  { internal := "gpt-4-turbo", api := "gpt-4-turbo", provider := .openai },
  { internal := "gpt-3.5-turbo", api := "gpt-3.5-turbo", provider := .openai },
  -- Anthropic models
  { internal := "claude-opus-4-1", api := "claude-opus-4-1-20250805",
    provider := .anthropic },
  { internal := "claude-opus-4-0", api := "claude-opus-4-20250514",
    provider := .anthropic },
  { internal := "claude-sonnet-4-0", api := "claude-sonnet-4-20250514",
    provider := .anthropic },
  { internal := "claude-3-7-sonnet-latest", api := "claude-3-7-sonnet-20250219",
    provider := .anthropic },
  { internal := "claude-3-5-haiku-latest", api := "claude-3-5-haiku-20241022",
    provider := .anthropic },
  -- Google models
  { internal := "gemini-2.5-pro", api := "gemini-2.5-pro", provider := .google },
  { internal := "gemini-1.5-pro", api := "gemini-1.5-pro", provider := .google },
  { internal := "gemini-1.5-flash", api := "gemini-1.5-flash", provider := .google },
  { internal := "gemini-pro", api := "gemini-pro", provider := .google },
  -- Legacy Gemini models
  { internal := "gemini-2.5-flash", api := "gemini-1.5-flash", provider := .google },
  { internal := "gemini-2.5-flash-lite", api := "gemini-1.5-flash",
    provider := .google }
]

/-- `mapToApiModel`: first table entry whose `internal` matches, else the
input unchanged. -/
def mapToApiModel (internalModel : String) : String :=
  match API_MODEL_MAPPINGS.find? (fun m => m.internal == internalModel) with
  | some mapping => mapping.api
  | none => internalModel

/-- `mapFromApiModel`: first table entry whose `api` matches, else the input
unchanged. -/
def mapFromApiModel (apiModel : String) : String :=
  match API_MODEL_MAPPINGS.find? (fun m => m.api == apiModel) with
  | some mapping => mapping.internal
  | none => apiModel

/-- `getModelProvider`: look up by internal name first, then by API name. -/
def getModelProvider (modelName : String) : Option Provider :=
  match API_MODEL_MAPPINGS.find? (fun m => m.internal == modelName) with
  | some mapping => some mapping.provider
  | none =>
    match API_MODEL_MAPPINGS.find? (fun m => m.api == modelName) with
    | some mapping => some mapping.provider
    | none => none

/-- `getModelsForProvider`: all entries for a provider, in table order. -/
def getModelsForProvider (provider : Provider) : List ModelMapping :=
  API_MODEL_MAPPINGS.filter (fun m => m.provider == provider)

/-- `isModelSupported`: true if the name matches any internal or API id. -/
def isModelSupported (modelName : String) : Bool :=
  API_MODEL_MAPPINGS.any (fun m => m.internal == modelName || m.api == modelName)

/-! ## Canonical request/response shapes (`@google/genai` vocabulary, as
consumed and produced by the adapters) -/

/-- One element of a `parts` array: `{ text?: string }`; a missing `text`
field is `none`. -/
structure ContentPart where
  text : Option String
  deriving DecidableEq, Repr

/-- A structured entry of a `contents` array: `{ role?, parts? }`. -/
structure ContentObject where
  role : Option String
  parts : Option (List ContentPart)
  deriving DecidableEq, Repr

/-- One entry of a `contents` array: a raw string or a content object. -/
inductive ContentEntry
  | str (s : String)
  | obj (c : ContentObject)
  deriving DecidableEq, Repr

/-- The `contents` argument of a request: a raw string, an array, or any
other shape (the untyped `any` fallthrough of the converters). -/
inductive Contents
  | str (s : String)
  | arr (entries : List ContentEntry)
  | other
  deriving DecidableEq, Repr

/-- The canonical finish-reason values the adapters produce. -/
inductive FinishReason
  | STOP
  | MAX_TOKENS
  | SAFETY
  | FINISH_REASON_UNSPECIFIED
  deriving DecidableEq, Repr

/-- A part of a produced response candidate (text is always set). -/
structure ResponsePart where
  text : String
  deriving DecidableEq, Repr

structure ResponseContent where
  parts : List ResponsePart
  role : String
  deriving DecidableEq, Repr

structure Candidate where
  content : ResponseContent
  finishReason : FinishReason
  deriving DecidableEq, Repr

structure UsageMetadata where
  promptTokenCount : Nat
  candidatesTokenCount : Nat
  totalTokenCount : Nat
  deriving DecidableEq, Repr

structure GenerateContentResponse where
  candidates : List Candidate
  usageMetadata : Option UsageMetadata := none
  deriving DecidableEq, Repr

structure CountTokensResponse where
  totalTokens : Nat
  deriving DecidableEq, Repr

/-- One embedding: `{ values: number[] }`; only `[]` is produced here. -/
structure ContentEmbedding where
  values : List Int
  deriving DecidableEq, Repr

structure EmbedContentResponse where
  embeddings : List ContentEmbedding
  deriving DecidableEq, Repr

/-- The flattened text of one `contents` entry: a raw string passes through;
an object contributes its part texts joined by single spaces (a missing
`parts` array contributes `""`, and a missing `text` inside a part joins as
`""`, matching `Array.prototype.join` on `undefined`). -/
def entryText : ContentEntry → String
  | .str s => s
  | .obj c =>
    match c.parts with
    | some ps => jsJoin " " (ps.map (fun part => part.text.getD ""))
    | none => ""

/-! ## `ApiContentGenerator` (`apiModelMapping.ts`, second compilation unit) -/

namespace ApiContentGenerator

/-- `ChatStreamChunk` `{ chunk: string, finished: boolean }`.  JSON fields
that are absent at runtime collapse to their falsy defaults (`""`/`false`),
which is observation-equivalent because the code only tests the truthiness
of `chunk` and `finished` and emits `chunk` only when it is truthy. -/
structure ChatStreamChunk where
  chunk : String
  finished : Bool
  deriving DecidableEq, Repr

inductive ChatMode
  | gateway
  | byok
  | byog
  deriving DecidableEq, Repr

structure ChatMetadata where
  response_time_ms : Option Nat
  tokens_used : Option Nat
  deriving DecidableEq, Repr

structure ChatApiResponse where
  message : String
  model_name : String
  mode : ChatMode
  metadata : Option ChatMetadata
  deriving DecidableEq, Repr

/-- `convertContentsToMessage`: a raw string is returned unchanged; an array
joins each entry's text (`content.parts?.map((part) => part.text).join(' ')
|| ''`, string entries passing through) with single spaces; any other shape
yields `""`.  The `|| ''` on the per-entry join is the identity on strings
and is absorbed into the `none` branch. -/
def convertContentsToMessage : Contents → String
  | .str s => s
  | .arr entries =>
    jsJoin " " (entries.map (fun content =>
      match content with
      | .str s => s
      | .obj c =>
        match c.parts with
        | some ps => jsJoin " " (ps.map (fun part => part.text.getD ""))
        | none => ""))
  | .other => ""

/-- `extractTextFromContents` delegates to `convertContentsToMessage`. -/
def extractTextFromContents (contents : Contents) : String :=
  convertContentsToMessage contents

/-- `countTokens`: estimate `Math.ceil(message.length / 4)`; for a natural
`n`, `Math.ceil(n / 4)` is `(n + 3) / 4` in truncating division. -/
def countTokens (contents : Contents) : CountTokensResponse :=
  let message := convertContentsToMessage contents
  { totalTokens := (message.length + 3) / 4 }

/-- `embedContent`.  The second component counts transport invocations made
by the body: the source method performs no `fetch` at all, so it is `0` on
both paths.  The inner `throw new Error('No content provided for embedding')`
is re-wrapped by the surrounding catch as `API embedding error: <message>`. -/
def embedContent (contents : Contents) : Except String EmbedContentResponse × Nat :=
  let text := extractTextFromContents contents
  if jsTrim text == "" then
    (.error ("API embedding error: " ++ "No content provided for embedding"), 0)
  else
    (.ok { embeddings := [{ values := [] }] }, 0)

/-- The body of the `for (const line of lines)` loop of
`convertApiStreamToGemini`, processing one complete line: blank lines and
lines without the `data: ` prefix are skipped; a prefixed line has its
payload parsed, a parse failure skips the line (the catch/continue branch),
and a parsed chunk with truthy text yields one response.  `parseChunk`
stands for `JSON.parse(line.slice(6)) as ChatStreamChunk`, with `none`
modelling a parse failure. -/
def processStreamLine (parseChunk : String → Option ChatStreamChunk)
    (line : String) : Option GenerateContentResponse :=
  if jsTrim line == "" then none
  else if jsStartsWith line "data: " then
    match parseChunk (jsSlice line 6) with
    | some data =>
      if data.chunk ≠ "" then
        some { candidates := [{
          content := { parts := [{ text := data.chunk }], role := "model" },
          finishReason := if data.finished then .STOP
                          else .FINISH_REASON_UNSPECIFIED }] }
      else none
    | none => none
  else none

/-- The sequence of responses yielded by `convertApiStreamToGemini` for a
list of complete lines (the lines obtained from the newline split of the
decode buffer, in arrival order). -/
def convertApiStreamToGemini (parseChunk : String → Option ChatStreamChunk)
    (lines : List String) : List GenerateContentResponse :=
  lines.filterMap (processStreamLine parseChunk)

/-- `convertApiResponseToGemini`: one STOP candidate carrying the message;
`usageMetadata` is attached only when `response.metadata?.tokens_used` is
truthy (metadata present, `tokens_used` present and nonzero), with the
prompt count zero-filled. -/
def convertApiResponseToGemini (response : ChatApiResponse) : GenerateContentResponse :=
  { candidates := [{
      content := { parts := [{ text := response.message }], role := "model" },
      finishReason := .STOP }],
    usageMetadata :=
      match response.metadata with
      | some md =>
        match md.tokens_used with
        | some n =>
          if n ≠ 0 then
            some { promptTokenCount := 0,
                   candidatesTokenCount := n,
                   totalTokenCount := n }
          else none
        | none => none
      | none => none }

end ApiContentGenerator

/-! ## `OpenAIContentGenerator` (`openaiContentGenerator.ts`) -/

namespace OpenAIContentGenerator

inductive OpenAIRole
  | user
  | assistant
  | system
  deriving DecidableEq, Repr

structure OpenAIMessage where
  role : OpenAIRole
  content : String
  deriving DecidableEq, Repr

/-- `convertGeminiMessagesToOpenAI`: a raw string becomes one user message;
each array entry becomes one message whose role is `user` exactly when
`content.role === 'user'` (anything else, including a missing role, maps to
`assistant`) and whose content is the entry's joined part texts. -/
def convertGeminiMessagesToOpenAI : Contents → List OpenAIMessage
  | .str s => [{ role := .user, content := s }]
  | .arr entries =>
    entries.map (fun content =>
      match content with
      | .str s => { role := .user, content := s }
      | .obj c =>
        { role := if c.role == some "user" then .user else .assistant,
          content :=
            match c.parts with
            | some ps => jsJoin " " (ps.map (fun part => part.text.getD ""))
            | none => "" })
  | .other => []

/-- `extractTextFromContents` (same body as the API adapter's
`convertContentsToMessage`). -/
def extractTextFromContents : Contents → String
  | .str s => s
  | .arr entries =>
    jsJoin " " (entries.map (fun content =>
      match content with
      | .str s => s
      | .obj c =>
        match c.parts with
        | some ps => jsJoin " " (ps.map (fun part => part.text.getD ""))
        | none => ""))
  | .other => ""

/-- `countTokens`: join the converted messages' contents with spaces and
estimate `Math.ceil(text.length / 4)`. -/
def countTokens (contents : Contents) : CountTokensResponse :=
  let messages := convertGeminiMessagesToOpenAI contents
  let text := jsJoin " " (messages.map (fun msg => msg.content))
  { totalTokens := (text.length + 3) / 4 }

structure OpenAIChoiceMessage where
  content : Option String
  deriving DecidableEq, Repr

structure OpenAIChoice where
  message : Option OpenAIChoiceMessage
  finish_reason : Option String
  deriving DecidableEq, Repr

structure OpenAIUsage where
  prompt_tokens : Option Nat
  completion_tokens : Option Nat
  total_tokens : Option Nat
  deriving DecidableEq, Repr

/-- The shape of the native response the converter reads (`response` is
typed `any` in the source; every field access is optional-chained). -/
structure OpenAIResponse where
  choices : Option (List OpenAIChoice)
  usage : Option OpenAIUsage
  deriving DecidableEq, Repr

/-- `convertFinishReason`: the switch over the native reason.  The TS
parameter is declared `string`, but call sites pass the optional-chained
`choices?.[0]?.finish_reason`, which may be `undefined`; the switch default
covers it. -/
def convertFinishReason (reason : Option String) : FinishReason :=
  match reason with
  | some "stop" => .STOP
  | some "length" => .MAX_TOKENS
  | some "content_filter" => .SAFETY
  | _ => .FINISH_REASON_UNSPECIFIED

/-- `convertOpenAIResponseToGemini`: first choice's message content (or
`""`), converted finish reason, and usage counters zero-filled via `|| 0`
(`undefined` and `0` both map to `0`). -/
def convertOpenAIResponseToGemini (response : OpenAIResponse) : GenerateContentResponse :=
  let content := (((response.choices.bind List.head?).bind
    OpenAIChoice.message).bind OpenAIChoiceMessage.content).getD ""
  { candidates := [{
      content := { parts := [{ text := content }], role := "model" },
      finishReason := convertFinishReason
        ((response.choices.bind List.head?).bind OpenAIChoice.finish_reason) }],
    usageMetadata := some {
      promptTokenCount := (response.usage.bind OpenAIUsage.prompt_tokens).getD 0,
      candidatesTokenCount := (response.usage.bind OpenAIUsage.completion_tokens).getD 0,
      totalTokenCount := (response.usage.bind OpenAIUsage.total_tokens).getD 0 } }

end OpenAIContentGenerator

/-! ## `AnthropicContentGenerator` (unnamed source file, part_001) -/

namespace AnthropicContentGenerator

inductive AnthropicRole
  | user
  | assistant
  deriving DecidableEq, Repr

structure AnthropicMessage where
  role : AnthropicRole
  content : String
  deriving DecidableEq, Repr

/-- `convertGeminiMessagesToAnthropic`: same traversal as the OpenAI
variant, with the two-way Anthropic role vocabulary. -/
def convertGeminiMessagesToAnthropic : Contents → List AnthropicMessage
  | .str s => [{ role := .user, content := s }]
  | .arr entries =>
    entries.map (fun content =>
      match content with
      | .str s => { role := .user, content := s }
      | .obj c =>
        { role := if c.role == some "user" then .user else .assistant,
          content :=
            match c.parts with
            | some ps => jsJoin " " (ps.map (fun part => part.text.getD ""))
            | none => "" })
  | .other => []

/-- `extractTextFromContents` (same body as the API adapter's
`convertContentsToMessage`). -/
def extractTextFromContents : Contents → String
  | .str s => s
  | .arr entries =>
    jsJoin " " (entries.map (fun content =>
      match content with
      | .str s => s
      | .obj c =>
        match c.parts with
        | some ps => jsJoin " " (ps.map (fun part => part.text.getD ""))
        | none => ""))
  | .other => ""

/-- `countTokens`: join the converted messages' contents with spaces and
estimate `Math.ceil(text.length / 4)`. -/
def countTokens (contents : Contents) : CountTokensResponse :=
  let messages := convertGeminiMessagesToAnthropic contents
  let text := jsJoin " " (messages.map (fun msg => msg.content))
  { totalTokens := (text.length + 3) / 4 }

/-- `embedContent`.  The second component counts transport invocations made
by the body: the source method calls no embedding API, so it is `0` on both
paths.  The inner `throw new Error('No content provided for embedding')` is
re-wrapped by the surrounding catch as `Anthropic embedding error:
<message>`. -/
def embedContent (contents : Contents) : Except String EmbedContentResponse × Nat :=
  let text := extractTextFromContents contents
  if jsTrim text == "" then
    (.error ("Anthropic embedding error: " ++ "No content provided for embedding"), 0)
  else
    (.ok { embeddings := [{ values := [] }] }, 0)

structure AnthropicContentBlock where
  text : Option String
  deriving DecidableEq, Repr

structure AnthropicUsage where
  input_tokens : Option Nat
  output_tokens : Option Nat
  deriving DecidableEq, Repr

/-- The shape of the native response the converter reads (`response` is
typed `any` in the source). -/
structure AnthropicResponse where
  content : Option (List AnthropicContentBlock)
  stop_reason : Option String
  usage : Option AnthropicUsage
  deriving DecidableEq, Repr

/-- `convertFinishReason`: the switch over the native stop reason; the
default covers unknown and absent reasons. -/
def convertFinishReason (reason : Option String) : FinishReason :=
  match reason with
  | some "end_turn" => .STOP
  | some "max_tokens" => .MAX_TOKENS
  | some "stop_sequence" => .STOP
  | _ => .FINISH_REASON_UNSPECIFIED

/-- `convertAnthropicResponseToGemini`: first content block's text (or
`""`), converted stop reason, and usage counters.  `promptTokenCount` and
`candidatesTokenCount` are `|| 0` zero-fills; `totalTokenCount` is
`response.usage?.input_tokens + response.usage?.output_tokens || 0`, which
is `NaN || 0 = 0` whenever either operand is `undefined` and the plain sum
otherwise (a zero sum also yields `0`). -/
def convertAnthropicResponseToGemini (response : AnthropicResponse) : GenerateContentResponse :=
  let content := (((response.content.bind List.head?).bind
    AnthropicContentBlock.text).getD "")
  { candidates := [{
      content := { parts := [{ text := content }], role := "model" },
      finishReason := convertFinishReason response.stop_reason }],
    usageMetadata := some {
      promptTokenCount := (response.usage.bind AnthropicUsage.input_tokens).getD 0,
      candidatesTokenCount := (response.usage.bind AnthropicUsage.output_tokens).getD 0,
      totalTokenCount :=
        match response.usage with
        | some u =>
          match u.input_tokens, u.output_tokens with
          | some i, some o => i + o
          | _, _ => 0
        | none => 0 } }

end AnthropicContentGenerator

/-! ## Dispatch factory (`contentGenerator.ts`) -/

/-- `AuthType`; the string values of the TS enum are recorded in comments. -/
inductive AuthType
  | LOGIN_WITH_GOOGLE  -- 'oauth-personal'
  | USE_GEMINI         -- 'gemini-api-key'
  | USE_VERTEX_AI      -- 'vertex-ai'
  | CLOUD_SHELL        -- 'cloud-shell'
  | USE_OPENAI         -- 'openai-api-key'
  | USE_ANTHROPIC      -- 'anthropic-api-key'
  | USE_API            -- 'api'
  deriving DecidableEq, Repr

/-- `ContentGeneratorConfig`: every field is optional in the TS type. -/
structure ContentGeneratorConfig where
  apiKey : Option String := none
  vertexai : Option Bool := none
  authType : Option AuthType := none
  proxy : Option String := none
  openaiApiKey : Option String := none
  openaiModel : Option String := none
  anthropicApiKey : Option String := none
  anthropicModel : Option String := none
  apiEndpoint : Option String := none
  apiAuthToken : Option String := none
  apiModel : Option String := none
  deriving DecidableEq, Repr

/-- The concrete adapter selected by the factory, carrying the construction
arguments the factory passes to it.  `codeAssist` stands for the generator
built by `createCodeAssistContentGenerator` (external to the core),
`googleGenAI` for the `GoogleGenAIWrapper` over a `GoogleGenAI` client. -/
inductive Adapter
  | codeAssist (authType : AuthType)
  | googleGenAI (apiKey : Option String) (vertexai : Option Bool) (modelName : String)
  | openai (apiKey : String) (model : String)
  | anthropic (apiKey : String) (model : String)
  | api (endpoint : String) (authToken : String) (model : String)
  deriving DecidableEq, Repr

/-- `LoggingContentGenerator`: the decorator every successful construction
is wrapped in. -/
structure LoggingContentGenerator where
  wrapped : Adapter
  deriving DecidableEq, Repr

/-- The provider family of an adapter. -/
inductive AdapterKind
  | codeAssist
  | google
  | openai
  | anthropic
  | api
  deriving DecidableEq, Repr

def Adapter.kind : Adapter → AdapterKind
  | .codeAssist _ => .codeAssist
  | .googleGenAI _ _ _ => .google
  | .openai _ _ => .openai
  | .anthropic _ _ => .anthropic
  | .api _ _ _ => .api

/-- The adapter family each recognized auth mode selects. -/
def expectedKind : AuthType → AdapterKind
  | .LOGIN_WITH_GOOGLE => .codeAssist
  | .CLOUD_SHELL => .codeAssist
  | .USE_GEMINI => .google
  | .USE_VERTEX_AI => .google
  | .USE_OPENAI => .openai
  | .USE_ANTHROPIC => .anthropic
  | .USE_API => .api

/-- `createContentGenerator`, if-chain for if-chain.  Guards mirror the
source: the OpenAI/Anthropic/API branches throw when their credential is
falsy (`!config.openaiApiKey` etc.); the Gemini/Vertex branch constructs the
GoogleGenAI wrapper with no credential check (an empty-string `apiKey` is
replaced by `undefined`, the model name depends on the truthiness of
`config.vertexai`); the final `throw` is reached only for an
undefined/unrecognized `authType`. -/
def createContentGenerator (config : ContentGeneratorConfig) :
    Except String LoggingContentGenerator :=
  match config.authType with
  | some .LOGIN_WITH_GOOGLE => .ok ⟨.codeAssist .LOGIN_WITH_GOOGLE⟩
  | some .CLOUD_SHELL => .ok ⟨.codeAssist .CLOUD_SHELL⟩
  | some .USE_GEMINI =>
    .ok ⟨.googleGenAI (if config.apiKey == some "" then none else config.apiKey)
      config.vertexai
      (if config.vertexai == some true then "vertex-ai" else "gemini-2.5-pro")⟩
  | some .USE_VERTEX_AI =>
    .ok ⟨.googleGenAI (if config.apiKey == some "" then none else config.apiKey)
      config.vertexai
      (if config.vertexai == some true then "vertex-ai" else "gemini-2.5-pro")⟩
  | some .USE_OPENAI =>
    if truthyStr config.openaiApiKey = false then
      .error "OpenAI API key is required for OpenAI authentication"
    else
      .ok ⟨.openai (config.openaiApiKey.getD "")
        (orDefaultStr config.openaiModel "gpt-4o")⟩
  | some .USE_ANTHROPIC =>
    if truthyStr config.anthropicApiKey = false then
      .error "Anthropic API key is required for Anthropic authentication"
    else
      .ok ⟨.anthropic (config.anthropicApiKey.getD "")
        (orDefaultStr config.anthropicModel "claude-3-5-sonnet-20241022")⟩
  | some .USE_API =>
    if (truthyStr config.apiEndpoint && truthyStr config.apiAuthToken) = false then
      .error "API endpoint and auth token are required for API-based authentication"
    else
      .ok ⟨.api (config.apiEndpoint.getD "") (config.apiAuthToken.getD "")
        (orDefaultStr config.apiModel "gpt-4o")⟩
  | none =>
    .error "Error creating contentGenerator: Unsupported authType: undefined"

/-! ## Stream-normalizer vocabulary used by the streaming claims -/

/-- A well-formed frame line for a given payload parser: it carries the
`data: ` prefix and its payload parses to a chunk with non-empty text. -/
def WellFormedFrame (parseChunk : String → Option ApiContentGenerator.ChatStreamChunk)
    (line : String) : Prop :=
  jsStartsWith line "data: " = true ∧
    ∃ data, parseChunk (jsSlice line 6) = some data ∧ data.chunk ≠ ""

/-- The canonical chunk the stream normalizer emits for a parsed frame:
one model-role candidate carrying the incremental text, finish reason STOP
when the frame is marked finished and UNSPECIFIED otherwise. -/
def streamResponseOf (data : ApiContentGenerator.ChatStreamChunk) : GenerateContentResponse :=
  { candidates := [{
      content := { parts := [{ text := data.chunk }], role := "model" },
      finishReason := if data.finished then .STOP
                      else .FINISH_REASON_UNSPECIFIED }] }

/-- A concrete payload parser used to evaluate the streaming claim: payload
`one` parses to a non-terminal chunk, payload `two` to a terminal chunk,
and every other payload fails to parse. -/
def streamDemoParse : String → Option ApiContentGenerator.ChatStreamChunk := fun s =>
  if s = "one" then some { chunk := "Hello", finished := false }
  else if s = "two" then some { chunk := " world", finished := true }
  else none

/-! ## Theorems -/

/-- Dropping elements while a predicate holds cannot delete an element the
predicate rejects, so the result is non-empty. -/
theorem dropWhile_ne_nil_of_mem {α : Type} {p : α → Bool} {l : List α} {a : α}
    (ha : a ∈ l) (hpa : p a = false) : l.dropWhile p ≠ [] := by
  induction l with
  | nil => cases ha
  | cons b bs ih =>
    rw [List.dropWhile_cons]
    by_cases hb : p b = true
    · rw [if_pos hb]
      apply ih
      cases List.mem_cons.mp ha with
      | inl heq =>
        subst heq
        exact absurd hb (by rw [hpa]; decide)
      | inr hmem => exact hmem
    · rw [if_neg hb]
      exact List.cons_ne_nil b bs

/-- A line carrying the `data: ` frame marker is not blank after trim. -/
theorem jsTrim_ne_empty_of_framed {line : String}
    (h : jsStartsWith line "data: " = true) : jsTrim line ≠ "" := by
  obtain ⟨cs, hdata⟩ : ∃ cs, line.data = 'd' :: cs := by
    rcases line with ⟨l⟩
    cases l with
    | nil => exact absurd h (by decide)
    | cons c cs =>
      have hc : ('d' == c) = true := by
        have h' := h
        unfold jsStartsWith charsStartWith at h'
        exact (Bool.and_eq_true _ _ ▸ h').1
      rw [show c = 'd' from (beq_iff_eq.mp hc).symm]
      exact ⟨cs, rfl⟩
  unfold jsTrim
  rw [hdata]
  rw [List.dropWhile_cons, if_neg (by decide)]
  intro hcontra
  have hnil : ((('d' :: cs).reverse.dropWhile Char.isWhitespace).reverse) = [] := by
    have := congrArg String.data hcontra
    simpa using this
  rw [List.reverse_eq_nil_iff] at hnil
  exact dropWhile_ne_nil_of_mem (List.mem_reverse.mpr (List.mem_cons_self 'd' cs))
    (by decide) hnil

/-- A well-formed frame line is processed into exactly the canonical chunk
of its parsed payload. -/
theorem processStreamLine_eq_of_wellFormed
    {parseChunk : String → Option ApiContentGenerator.ChatStreamChunk} {line : String}
    (h : WellFormedFrame parseChunk line) :
    ∀ data, parseChunk (jsSlice line 6) = some data →
      ApiContentGenerator.processStreamLine parseChunk line =
        some (streamResponseOf data) := by
  intro data hdata
  obtain ⟨hpre, d0, hd0, hne⟩ := h
  have hdd : data = d0 := Option.some.inj (hdata ▸ hd0)
  have htrim : jsTrim line ≠ "" := jsTrim_ne_empty_of_framed hpre
  unfold ApiContentGenerator.processStreamLine
  rw [if_neg (by simpa using htrim), if_pos hpre, hdata]
  show (if data.chunk ≠ "" then some (streamResponseOf data) else none) =
    some (streamResponseOf data)
  rw [if_pos (show data.chunk ≠ "" by rw [hdd]; exact hne)]

/-- A `data: `-prefixed line whose payload fails to parse is dropped. -/
theorem processStreamLine_drop_of_parse_fail
    {parseChunk : String → Option ApiContentGenerator.ChatStreamChunk} {line : String}
    (hpre : jsStartsWith line "data: " = true)
    (hfail : parseChunk (jsSlice line 6) = none) :
    ApiContentGenerator.processStreamLine parseChunk line = none := by
  unfold ApiContentGenerator.processStreamLine
  by_cases ht : (jsTrim line == "") = true
  · rw [if_pos ht]
  · rw [if_neg ht, if_pos hpre, hfail]

/-- `filterMap` preserves length when the function succeeds on every
element. -/
theorem length_filterMap_of_isSome {α β : Type} (f : α → Option β) :
    ∀ l : List α, (∀ x ∈ l, (f x).isSome = true) → (l.filterMap f).length = l.length := by
  intro l
  induction l with
  | nil => intro _; rfl
  | cons a as ih =>
    intro h
    cases hfa : f a with
    | none =>
      have hmem := h a (List.mem_cons_self a as)
      rw [hfa] at hmem
      simp at hmem
    | some b =>
      rw [List.filterMap_cons_some hfa, List.length_cons, List.length_cons,
        ih (fun x hx => h x (List.mem_cons_of_mem a hx))]

/-- C1: for every internal id registered in `API_MODEL_MAPPINGS`, mapping to
the API id and back returns the internal id itself, except for the two
legacy-aliased entries `gemini-2.5-flash` and `gemini-2.5-flash-lite`, whose
round trip returns the alias target `gemini-1.5-flash`. -/
theorem claim_C1_roundtrip :
    ∀ m ∈ API_MODEL_MAPPINGS,
      mapFromApiModel (mapToApiModel m.internal) =
        if m.internal = "gemini-2.5-flash" ∨ m.internal = "gemini-2.5-flash-lite"
        then "gemini-1.5-flash" else m.internal := by
  decide

/-- C1 witness: the round trip evaluated at the registered legacy entry
`gemini-2.5-flash` yields the alias target. -/
theorem claim_C1_roundtrip_witness :
    mapFromApiModel (mapToApiModel "gemini-2.5-flash") = "gemini-1.5-flash" := by
  have h := claim_C1_roundtrip
    { internal := "gemini-2.5-flash", api := "gemini-1.5-flash", provider := .google }
    (by decide)
  rwa [if_pos (Or.inl rfl)] at h

/-- C9: every id registered in no table entry is echoed by `mapToApiModel`,
has no provider, and is unsupported; every id appearing as some entry's
internal or API id is supported; `claude-opus-4-1` is supported and
`not-a-model` is not. -/
theorem claim_C9_lookups :
    (∀ x : String, (∀ m ∈ API_MODEL_MAPPINGS, m.internal ≠ x ∧ m.api ≠ x) →
      mapToApiModel x = x ∧ getModelProvider x = none ∧ isModelSupported x = false) ∧
    (∀ m ∈ API_MODEL_MAPPINGS,
      isModelSupported m.internal = true ∧ isModelSupported m.api = true) ∧
    isModelSupported "claude-opus-4-1" = true ∧
    isModelSupported "not-a-model" = false := by
  refine ⟨?_, ?_, by decide, by decide⟩
  · intro x h
    have hfind1 : API_MODEL_MAPPINGS.find? (fun m => m.internal == x) = none :=
      List.find?_eq_none.mpr (fun m hm => by
        simp only [beq_iff_eq]
        exact (h m hm).1)
    have hfind2 : API_MODEL_MAPPINGS.find? (fun m => m.api == x) = none :=
      List.find?_eq_none.mpr (fun m hm => by
        simp only [beq_iff_eq]
        exact (h m hm).2)
    refine ⟨?_, ?_, ?_⟩
    · unfold mapToApiModel
      rw [hfind1]
    · unfold getModelProvider
      rw [hfind1, hfind2]
    · unfold isModelSupported
      rw [List.any_eq_false]
      intro m hm
      simp only [Bool.or_eq_true, beq_iff_eq, not_or]
      exact ⟨(h m hm).1, (h m hm).2⟩
  · intro m hm
    constructor
    · exact List.any_eq_true.mpr ⟨m, hm, by simp⟩
    · exact List.any_eq_true.mpr ⟨m, hm, by simp⟩

/-- C9 witness: the unregistered id `not-a-model` evaluated concretely. -/
theorem claim_C9_lookups_witness :
    mapToApiModel "not-a-model" = "not-a-model" ∧
    getModelProvider "not-a-model" = none ∧
    isModelSupported "not-a-model" = false :=
  claim_C9_lookups.1 "not-a-model" (by decide)

/-- C10 counterexample: the claim says the legacy internal id
`gemini-2.5-flash` is never returned by `mapFromApiModel` for any input,
but on the input `gemini-2.5-flash` itself (registered as no entry's API
id) the unmapped-input fallback echoes it back. -/
theorem claim_C10_counterexample :
    mapFromApiModel "gemini-2.5-flash" = "gemini-2.5-flash" := by
  decide

/-- Helper for C10: if every table entry whose internal id is `legacy` has
API id `gemini-1.5-flash`, and `mapFromApiModel "gemini-1.5-flash"` is not
`legacy`, then `mapFromApiModel` returns `legacy` only on the echoed input
`legacy` itself. -/
theorem mapFrom_legacy_only_echo (legacy : String)
    (hleg : ∀ m ∈ API_MODEL_MAPPINGS, m.internal = legacy → m.api = "gemini-1.5-flash")
    (hflash : mapFromApiModel "gemini-1.5-flash" ≠ legacy) :
    ∀ s, mapFromApiModel s = legacy → s = legacy := by
  intro s hs
  unfold mapFromApiModel at hs
  cases hfind : API_MODEL_MAPPINGS.find? (fun m => m.api == s) with
  | none =>
    rw [hfind] at hs
    exact hs
  | some m =>
    rw [hfind] at hs
    have hmem : m ∈ API_MODEL_MAPPINGS := List.mem_of_find?_eq_some hfind
    have hapi : (m.api == s) = true := by
      have h' := List.find?_some hfind
      simpa using h'
    have hflashapi : m.api = "gemini-1.5-flash" := hleg m hmem hs
    have hsflash : s = "gemini-1.5-flash" := by
      rw [← beq_iff_eq.mp hapi, hflashapi]
    exfalso
    apply hflash
    rw [← hsflash]
    unfold mapFromApiModel
    rw [hfind]
    exact hs

/-- C10 (amended): `mapFromApiModel` resolves a wire id to the internal id
of the earliest table entry carrying it, so `gemini-1.5-flash` maps to the
internal id `gemini-1.5-flash`; the legacy internal ids `gemini-2.5-flash`
and `gemini-2.5-flash-lite` are never produced by a table lookup — they are
returned only when the input is that very id, echoed by the unmapped-input
fallback. -/
theorem claim_C10_first_match :
    (∀ pre e post, API_MODEL_MAPPINGS = pre ++ e :: post →
      (∀ p ∈ pre, p.api ≠ e.api) → mapFromApiModel e.api = e.internal) ∧
    mapFromApiModel "gemini-1.5-flash" = "gemini-1.5-flash" ∧
    (∀ s, mapFromApiModel s = "gemini-2.5-flash" → s = "gemini-2.5-flash") ∧
    (∀ s, mapFromApiModel s = "gemini-2.5-flash-lite" → s = "gemini-2.5-flash-lite") := by
  refine ⟨?_, by decide,
    mapFrom_legacy_only_echo _ (by decide) (by decide),
    mapFrom_legacy_only_echo _ (by decide) (by decide)⟩
  intro pre e post htbl hpre
  unfold mapFromApiModel
  rw [htbl, List.find?_append]
  have h1 : pre.find? (fun m => m.api == e.api) = none :=
    List.find?_eq_none.mpr (fun p hp => by
      simp only [beq_iff_eq]
      exact hpre p hp)
  rw [h1, List.find?_cons_of_pos _ (by simp)]
  rfl

/-- C10 witness: the first-match clause applied to the concrete split of the
table around the `gemini-1.5-flash` entry, and the echo clause applied to
the input `gemini-2.5-flash`. -/
theorem claim_C10_first_match_witness :
    mapFromApiModel "gemini-1.5-flash" = "gemini-1.5-flash" ∧
    "gemini-2.5-flash" = "gemini-2.5-flash" := by
  constructor
  · exact claim_C10_first_match.1
      [{ internal := "gpt-4o", api := "gpt-4o", provider := .openai },
       { internal := "gpt-4o-mini", api := "gpt-4o-mini", provider := .openai },
       { internal := "gpt-4-turbo", api := "gpt-4-turbo", provider := .openai },
       { internal := "gpt-3.5-turbo", api := "gpt-3.5-turbo", provider := .openai },
       { internal := "claude-opus-4-1", api := "claude-opus-4-1-20250805",
         provider := .anthropic },
       { internal := "claude-opus-4-0", api := "claude-opus-4-20250514",
         provider := .anthropic },
       { internal := "claude-sonnet-4-0", api := "claude-sonnet-4-20250514",
         provider := .anthropic },
       { internal := "claude-3-7-sonnet-latest", api := "claude-3-7-sonnet-20250219",
         provider := .anthropic },
       { internal := "claude-3-5-haiku-latest", api := "claude-3-5-haiku-20241022",
         provider := .anthropic },
       { internal := "gemini-2.5-pro", api := "gemini-2.5-pro", provider := .google },
       { internal := "gemini-1.5-pro", api := "gemini-1.5-pro", provider := .google }]
      { internal := "gemini-1.5-flash", api := "gemini-1.5-flash", provider := .google }
      [{ internal := "gemini-pro", api := "gemini-pro", provider := .google },
       { internal := "gemini-2.5-flash", api := "gemini-1.5-flash", provider := .google },
       { internal := "gemini-2.5-flash-lite", api := "gemini-1.5-flash",
         provider := .google }]
      (by decide) (by decide)
  · exact claim_C10_first_match.2.2.1 "gemini-2.5-flash" (by decide)

/-- C5: both finish-reason converters are total into the four canonical
values: the OpenAI adapter maps `stop`, `length`, `content_filter` and the
Anthropic adapter maps `end_turn`, `stop_sequence`, `max_tokens` as listed,
and every other native reason — unknown or absent — maps to
`FINISH_REASON_UNSPECIFIED` in both. -/
theorem claim_C5_finish_reasons :
    OpenAIContentGenerator.convertFinishReason (some "stop") = .STOP ∧
    OpenAIContentGenerator.convertFinishReason (some "length") = .MAX_TOKENS ∧
    OpenAIContentGenerator.convertFinishReason (some "content_filter") = .SAFETY ∧
    AnthropicContentGenerator.convertFinishReason (some "end_turn") = .STOP ∧
    AnthropicContentGenerator.convertFinishReason (some "stop_sequence") = .STOP ∧
    AnthropicContentGenerator.convertFinishReason (some "max_tokens") = .MAX_TOKENS ∧
    (∀ r : Option String, r ≠ some "stop" → r ≠ some "length" →
      r ≠ some "content_filter" →
      OpenAIContentGenerator.convertFinishReason r = .FINISH_REASON_UNSPECIFIED) ∧
    (∀ r : Option String, r ≠ some "end_turn" → r ≠ some "stop_sequence" →
      r ≠ some "max_tokens" →
      AnthropicContentGenerator.convertFinishReason r = .FINISH_REASON_UNSPECIFIED) := by
  refine ⟨rfl, rfl, rfl, rfl, rfl, rfl, ?_, ?_⟩
  · intro r h1 h2 h3
    unfold OpenAIContentGenerator.convertFinishReason
    split
    · exact absurd rfl h1
    · exact absurd rfl h2
    · exact absurd rfl h3
    · rfl
  · intro r h1 h2 h3
    unfold AnthropicContentGenerator.convertFinishReason
    split
    · exact absurd rfl h1
    · exact absurd rfl h3
    · exact absurd rfl h2
    · rfl

/-- C5 witness: an unknown OpenAI reason and an absent Anthropic reason both
collapse to `FINISH_REASON_UNSPECIFIED`. -/
theorem claim_C5_finish_reasons_witness :
    OpenAIContentGenerator.convertFinishReason (some "tool_calls") =
      .FINISH_REASON_UNSPECIFIED ∧
    AnthropicContentGenerator.convertFinishReason none =
      .FINISH_REASON_UNSPECIFIED :=
  ⟨claim_C5_finish_reasons.2.2.2.2.2.2.1 (some "tool_calls")
    (by decide) (by decide) (by decide),
   claim_C5_finish_reasons.2.2.2.2.2.2.2 none
    (by decide) (by decide) (by decide)⟩

/-- C8: the flattening used for token estimation and embedding input returns
a raw string unchanged (so it is the identity, hence idempotent, on flat
strings), joins a sequence's entry texts — each entry's part texts joined by
single spaces, string entries passing through — with single spaces, returns
`""` on any other shape, and the OpenAI adapter's `extractTextFromContents`
and the API adapter's `extractTextFromContents` agree with
`convertContentsToMessage` everywhere. -/
theorem claim_C8_flatten :
    (∀ s : String, ApiContentGenerator.convertContentsToMessage (.str s) = s) ∧
    (∀ entries, ApiContentGenerator.convertContentsToMessage (.arr entries) =
      jsJoin " " (entries.map entryText)) ∧
    ApiContentGenerator.convertContentsToMessage .other = "" ∧
    (∀ c, ApiContentGenerator.extractTextFromContents c =
      ApiContentGenerator.convertContentsToMessage c) ∧
    (∀ c, OpenAIContentGenerator.extractTextFromContents c =
      ApiContentGenerator.convertContentsToMessage c) := by
  refine ⟨fun s => rfl, ?_, rfl, fun c => rfl, ?_⟩
  · intro entries
    show jsJoin " " (entries.map _) = jsJoin " " (entries.map entryText)
    congr 1
  · intro c
    cases c with
    | str s => rfl
    | arr entries => rfl
    | other => rfl

/-- Helper for C7: the text the OpenAI `countTokens` joins from its
converted messages is exactly `extractTextFromContents`. -/
theorem openai_countTokens_text_eq_extract (c : Contents) :
    jsJoin " " ((OpenAIContentGenerator.convertGeminiMessagesToOpenAI c).map
      (fun msg => msg.content)) =
    OpenAIContentGenerator.extractTextFromContents c := by
  cases c with
  | str s => rfl
  | arr entries =>
    show jsJoin " " ((entries.map _).map _) = jsJoin " " (entries.map _)
    rw [List.map_map]
    congr 1
    apply List.map_congr_left
    intro a _
    cases a with
    | str s => rfl
    | obj co => rfl
  | other => rfl

/-- C7: both adapters without a native counting endpoint estimate
`Math.ceil(len / 4)` of the flattened text — `(len + 3) / 4`, which is the
ceiling division `len ⌈/⌉ 4` — and the estimate is monotone in the flattened
text length. -/
theorem claim_C7_count_tokens :
    (∀ c, (ApiContentGenerator.countTokens c).totalTokens =
      (ApiContentGenerator.convertContentsToMessage c).length ⌈/⌉ 4) ∧
    (∀ c, (OpenAIContentGenerator.countTokens c).totalTokens =
      (OpenAIContentGenerator.extractTextFromContents c).length ⌈/⌉ 4) ∧
    (∀ c₁ c₂,
      (ApiContentGenerator.convertContentsToMessage c₁).length ≤
        (ApiContentGenerator.convertContentsToMessage c₂).length →
      (ApiContentGenerator.countTokens c₁).totalTokens ≤
        (ApiContentGenerator.countTokens c₂).totalTokens) ∧
    (∀ c₁ c₂,
      (OpenAIContentGenerator.extractTextFromContents c₁).length ≤
        (OpenAIContentGenerator.extractTextFromContents c₂).length →
      (OpenAIContentGenerator.countTokens c₁).totalTokens ≤
        (OpenAIContentGenerator.countTokens c₂).totalTokens) := by
  have hceil : ∀ n : Nat, (n + 3) / 4 = n ⌈/⌉ 4 := by
    intro n
    rw [Nat.ceilDiv_eq_add_pred_div]
    norm_num
  refine ⟨?_, ?_, ?_, ?_⟩
  · intro c
    exact hceil _
  · intro c
    show (jsJoin " " _).length.add 3 / 4 = _
    rw [show ∀ m : Nat, m.add 3 = m + 3 from fun _ => rfl,
      openai_countTokens_text_eq_extract c]
    exact hceil _
  · intro c₁ c₂ h
    exact Nat.div_le_div_right (Nat.add_le_add_right h 3)
  · intro c₁ c₂ h
    show (jsJoin " " _).length.add 3 / 4 ≤ (jsJoin " " _).length.add 3 / 4
    rw [show ∀ m : Nat, m.add 3 = m + 3 from fun _ => rfl,
      openai_countTokens_text_eq_extract c₁, openai_countTokens_text_eq_extract c₂]
    exact Nat.div_le_div_right (Nat.add_le_add_right h 3)

/-- C7 witness: the estimate evaluated at two concrete raw-string contents
with the length hypothesis discharged by computation. -/
theorem claim_C7_count_tokens_witness :
    (ApiContentGenerator.countTokens (.str "hello")).totalTokens ≤
      (ApiContentGenerator.countTokens (.str "hello, world")).totalTokens ∧
    (OpenAIContentGenerator.countTokens (.str "hello")).totalTokens ≤
      (OpenAIContentGenerator.countTokens (.str "hello, world")).totalTokens :=
  ⟨claim_C7_count_tokens.2.2.1 (.str "hello") (.str "hello, world") (by decide),
   claim_C7_count_tokens.2.2.2 (.str "hello") (.str "hello, world") (by decide)⟩

/-- C6: for the two adapters without a native embeddings endpoint, the
embed path performs no transport call at all (the transport-invocation
count is `0` on every input); when the flattened text is blank after trim
it raises an error whose message contains `No content provided for
embedding`, and otherwise it returns exactly one embedding with an empty
values vector. -/
theorem claim_C6_embed :
    (∀ c, (ApiContentGenerator.embedContent c).2 = 0 ∧
      (AnthropicContentGenerator.embedContent c).2 = 0) ∧
    (∀ c, jsTrim (ApiContentGenerator.extractTextFromContents c) = "" →
      (∃ pre post, (ApiContentGenerator.embedContent c).1 =
        .error (pre ++ "No content provided for embedding" ++ post)) ∧
      (∃ pre post, (AnthropicContentGenerator.embedContent c).1 =
        .error (pre ++ "No content provided for embedding" ++ post))) ∧
    (∀ c, jsTrim (ApiContentGenerator.extractTextFromContents c) ≠ "" →
      (ApiContentGenerator.embedContent c).1 = .ok { embeddings := [{ values := [] }] } ∧
      (AnthropicContentGenerator.embedContent c).1 = .ok { embeddings := [{ values := [] }] }) := by
  have hsame : ∀ c, AnthropicContentGenerator.extractTextFromContents c =
      ApiContentGenerator.extractTextFromContents c := by
    intro c
    cases c with
    | str s => rfl
    | arr entries => rfl
    | other => rfl
  refine ⟨?_, ?_, ?_⟩
  · intro c
    constructor
    · by_cases hx : (jsTrim (ApiContentGenerator.extractTextFromContents c) == "") = true <;>
        simp [ApiContentGenerator.embedContent, hx]
    · by_cases hx : (jsTrim (AnthropicContentGenerator.extractTextFromContents c) == "") = true <;>
        simp [AnthropicContentGenerator.embedContent, hx]
  · intro c h
    have hbeq : (jsTrim (ApiContentGenerator.extractTextFromContents c) == "") = true :=
      beq_iff_eq.mpr h
    constructor
    · refine ⟨"API embedding error: ", "", ?_⟩
      unfold ApiContentGenerator.embedContent
      rw [if_pos hbeq]
      exact congrArg (fun s => (Except.error s, 0).1) (by decide)
    · refine ⟨"Anthropic embedding error: ", "", ?_⟩
      unfold AnthropicContentGenerator.embedContent
      rw [hsame c, if_pos hbeq]
      exact congrArg (fun s => (Except.error s, 0).1) (by decide)
  · intro c h
    have hbeq : (jsTrim (ApiContentGenerator.extractTextFromContents c) == "") = false := by
      simpa using h
    constructor
    · unfold ApiContentGenerator.embedContent
      rw [if_neg (by simp [hbeq])]
    · unfold AnthropicContentGenerator.embedContent
      rw [hsame c, if_neg (by simp [hbeq])]

/-- C6 witness: blank contents `"   "` raise the validation error with zero
transport calls, and `"hello"` returns one empty embedding. -/
theorem claim_C6_embed_witness :
    (ApiContentGenerator.embedContent (.str "   ")).2 = 0 ∧
    (∃ pre post, (ApiContentGenerator.embedContent (.str "   ")).1 =
      .error (pre ++ "No content provided for embedding" ++ post)) ∧
    (AnthropicContentGenerator.embedContent (.str "hello")).1 =
      .ok { embeddings := [{ values := [] }] } :=
  ⟨(claim_C6_embed.1 (.str "   ")).1,
   ((claim_C6_embed.2.1 (.str "   ") (by decide)).1),
   (claim_C6_embed.2.2 (.str "hello") (by decide)).2⟩

/-- C4 counterexample: the claim says `usage` is always present on a
successful non-streaming response, but the API adapter omits
`usageMetadata` entirely when the backend reports no `tokens_used`. -/
theorem claim_C4_counterexample :
    (ApiContentGenerator.convertApiResponseToGemini
      { message := "hi", model_name := "gpt-4o", mode := .gateway,
        metadata := none }).usageMetadata = none := by
  decide

/-- C4 (amended): the OpenAI and Anthropic converters always attach a usage
block, zero-filling each counter the provider omits (the Anthropic total
collapses to `0` unless both native counters are present, via `NaN || 0`);
the API converter attaches usage exactly when the backend reports a nonzero
`tokens_used` — then the prompt count is zero-filled and completion and
total both carry `tokens_used` — and omits the block otherwise. -/
theorem claim_C4_usage :
    (∀ r : OpenAIContentGenerator.OpenAIResponse,
      (OpenAIContentGenerator.convertOpenAIResponseToGemini r).usageMetadata =
        some {
          promptTokenCount := (r.usage.bind OpenAIContentGenerator.OpenAIUsage.prompt_tokens).getD 0,
          candidatesTokenCount := (r.usage.bind OpenAIContentGenerator.OpenAIUsage.completion_tokens).getD 0,
          totalTokenCount := (r.usage.bind OpenAIContentGenerator.OpenAIUsage.total_tokens).getD 0 }) ∧
    (∀ r : AnthropicContentGenerator.AnthropicResponse, ∃ u,
      (AnthropicContentGenerator.convertAnthropicResponseToGemini r).usageMetadata = some u ∧
      u.promptTokenCount = (r.usage.bind AnthropicContentGenerator.AnthropicUsage.input_tokens).getD 0 ∧
      u.candidatesTokenCount = (r.usage.bind AnthropicContentGenerator.AnthropicUsage.output_tokens).getD 0 ∧
      (∀ us i o, r.usage = some us → us.input_tokens = some i → us.output_tokens = some o →
        u.totalTokenCount = i + o) ∧
      (r.usage = none → u.totalTokenCount = 0) ∧
      (∀ us, r.usage = some us →
        us.input_tokens = none ∨ us.output_tokens = none →
        u.totalTokenCount = 0)) ∧
    (∀ r : ApiContentGenerator.ChatApiResponse,
      ((ApiContentGenerator.convertApiResponseToGemini r).usageMetadata).isSome = true ↔
        ∃ md n, r.metadata = some md ∧ md.tokens_used = some n ∧ n ≠ 0) ∧
    (∀ r md n, ApiContentGenerator.ChatApiResponse.metadata r = some md →
      ApiContentGenerator.ChatMetadata.tokens_used md = some n → n ≠ 0 →
      (ApiContentGenerator.convertApiResponseToGemini r).usageMetadata =
        some { promptTokenCount := 0, candidatesTokenCount := n, totalTokenCount := n }) := by
  refine ⟨fun r => rfl, ?_, ?_, ?_⟩
  · intro r
    refine ⟨_, rfl, rfl, rfl, ?_, ?_, ?_⟩
    · intro us i o hus hi ho
      show (match r.usage with
        | some u =>
          match u.input_tokens, u.output_tokens with
          | some a, some b => a + b
          | _, _ => 0
        | none => 0) = i + o
      rw [hus]
      show (match us.input_tokens, us.output_tokens with
        | some a, some b => a + b
        | _, _ => 0) = i + o
      rw [hi, ho]
    · intro h
      show (match r.usage with
        | some u =>
          match u.input_tokens, u.output_tokens with
          | some a, some b => a + b
          | _, _ => 0
        | none => 0) = 0
      rw [h]
    · intro us hus hmiss
      show (match r.usage with
        | some u =>
          match u.input_tokens, u.output_tokens with
          | some a, some b => a + b
          | _, _ => 0
        | none => 0) = 0
      rw [hus]
      show (match us.input_tokens, us.output_tokens with
        | some a, some b => a + b
        | _, _ => 0) = 0
      cases hmiss with
      | inl hi =>
        rw [hi]
      | inr ho =>
        rw [ho]
        cases us.input_tokens <;> rfl
  · intro r
    unfold ApiContentGenerator.convertApiResponseToGemini
    cases hmd : r.metadata with
    | none => simp [hmd]
    | some md =>
      cases hn : md.tokens_used with
      | none => simp [hmd, hn]
      | some n =>
        by_cases hz : n = 0
        · subst hz
          simp [hmd, hn]
        · simp only [hmd, hn]
          rw [if_pos hz]
          simp only [Option.isSome_some, true_iff]
          exact ⟨md, n, rfl, hn, hz⟩
  · intro r md n hmd hn hz
    unfold ApiContentGenerator.convertApiResponseToGemini
    simp only [hmd, hn]
    rw [if_pos hz]

/-- C4 witness: a backend response reporting `tokens_used = 7` yields usage
with a zero-filled prompt count and completion and total of `7`. -/
theorem claim_C4_usage_witness :
    (ApiContentGenerator.convertApiResponseToGemini
      { message := "ok", model_name := "gpt-4o", mode := .gateway,
        metadata := some { response_time_ms := none, tokens_used := some 7 } }).usageMetadata =
      some { promptTokenCount := 0, candidatesTokenCount := 7, totalTokenCount := 7 } :=
  claim_C4_usage.2.2.2
    { message := "ok", model_name := "gpt-4o", mode := .gateway,
      metadata := some { response_time_ms := none, tokens_used := some 7 } }
    { response_time_ms := none, tokens_used := some 7 } 7 rfl rfl (by decide)

/-- C3 counterexample: the claim says a recognized mode missing its
required credential raises a construction-time error, but the Gemini
API-key mode with no credential at all constructs the GoogleGenAI-backed
generator successfully (no credential check on that path). -/
theorem claim_C3_counterexample :
    createContentGenerator { authType := some .USE_GEMINI } =
      .ok ⟨.googleGenAI none none "gemini-2.5-pro"⟩ := rfl

/-- C3 (amended): `createContentGenerator` is total over configurations and
constructs exactly one adapter, determined solely by the auth mode and
wrapped in the logging decorator; it errors exactly when the auth type is
undefined/unrecognized or when the OpenAI, Anthropic or API mode is missing
its credential (key, or endpoint/token) — the Gemini and Vertex modes
construct without any credential check — and a successful construction
never yields a different provider family's adapter. -/
theorem claim_C3_factory :
    (∀ config : ContentGeneratorConfig,
      (∃ e, createContentGenerator config = .error e) ↔
        (config.authType = none ∨
         (config.authType = some .USE_OPENAI ∧ truthyStr config.openaiApiKey = false) ∨
         (config.authType = some .USE_ANTHROPIC ∧ truthyStr config.anthropicApiKey = false) ∨
         (config.authType = some .USE_API ∧
           (truthyStr config.apiEndpoint && truthyStr config.apiAuthToken) = false))) ∧
    (∀ config g, createContentGenerator config = .ok g →
      ∃ t, config.authType = some t ∧ g.wrapped.kind = expectedKind t) := by
  constructor
  · intro config
    unfold createContentGenerator
    cases hat : config.authType with
    | none => simp
    | some t =>
      cases t with
      | LOGIN_WITH_GOOGLE => simp
      | CLOUD_SHELL => simp
      | USE_GEMINI => simp
      | USE_VERTEX_AI => simp
      | USE_OPENAI =>
        by_cases h : truthyStr config.openaiApiKey = false
        · rw [if_pos h]
          simp [h]
        · rw [if_neg h]
          simp [h]
      | USE_ANTHROPIC =>
        by_cases h : truthyStr config.anthropicApiKey = false
        · rw [if_pos h]
          simp [h]
        · rw [if_neg h]
          simp [h]
      | USE_API =>
        by_cases h : (truthyStr config.apiEndpoint && truthyStr config.apiAuthToken) = false
        · rw [if_pos h]
          simp [h]
        · rw [if_neg h]
          simp [h]
  · intro config g hg
    cases hat : config.authType with
    | none =>
      simp only [createContentGenerator, hat] at hg
      cases hg
    | some t =>
      refine ⟨t, rfl, ?_⟩
      cases t with
      | LOGIN_WITH_GOOGLE =>
        simp only [createContentGenerator, hat] at hg
        cases hg
        rfl
      | CLOUD_SHELL =>
        simp only [createContentGenerator, hat] at hg
        cases hg
        rfl
      | USE_GEMINI =>
        simp only [createContentGenerator, hat] at hg
        cases hg
        rfl
      | USE_VERTEX_AI =>
        simp only [createContentGenerator, hat] at hg
        cases hg
        rfl
      | USE_OPENAI =>
        simp only [createContentGenerator, hat] at hg
        split at hg
        · cases hg
        · cases hg
          rfl
      | USE_ANTHROPIC =>
        simp only [createContentGenerator, hat] at hg
        split at hg
        · cases hg
        · cases hg
          rfl
      | USE_API =>
        simp only [createContentGenerator, hat] at hg
        split at hg
        · cases hg
        · cases hg
          rfl

/-- C3 witness: an OpenAI-mode configuration with a key present constructs
the logging-wrapped OpenAI adapter, whose family matches the mode. -/
theorem claim_C3_factory_witness :
    ∃ t, ({ authType := some .USE_OPENAI, openaiApiKey := some "sk-test" } :
        ContentGeneratorConfig).authType = some t ∧
      (LoggingContentGenerator.mk (.openai "sk-test" "gpt-4o")).wrapped.kind =
        expectedKind t :=
  claim_C3_factory.2
    { authType := some .USE_OPENAI, openaiApiKey := some "sk-test" }
    ⟨.openai "sk-test" "gpt-4o"⟩ rfl

/-- C2: for a line-framed stream delivering N well-formed `data: ` frames
with non-empty chunk text, then one malformed line (prefixed but with an
unparseable payload), then M more well-formed frames, the normalizer yields
exactly N+M canonical chunks in the original relative order — the malformed
line is silently dropped and never aborts the stream — each emitted chunk's
finish reason being STOP when its frame is marked finished and UNSPECIFIED
otherwise; blank lines and lines without the frame prefix are skipped. -/
theorem claim_C2_stream (parseChunk : String → Option ApiContentGenerator.ChatStreamChunk)
    (ws1 ws2 : List String) (bad : String)
    (h1 : ∀ l ∈ ws1, WellFormedFrame parseChunk l)
    (h2 : ∀ l ∈ ws2, WellFormedFrame parseChunk l)
    (hbadpre : jsStartsWith bad "data: " = true)
    (hbadparse : parseChunk (jsSlice bad 6) = none) :
    ApiContentGenerator.convertApiStreamToGemini parseChunk (ws1 ++ bad :: ws2) =
      ApiContentGenerator.convertApiStreamToGemini parseChunk ws1 ++
        ApiContentGenerator.convertApiStreamToGemini parseChunk ws2 ∧
    (ApiContentGenerator.convertApiStreamToGemini parseChunk (ws1 ++ bad :: ws2)).length =
      ws1.length + ws2.length ∧
    (∀ l ∈ ws1 ++ ws2, ∀ data, parseChunk (jsSlice l 6) = some data →
      ApiContentGenerator.processStreamLine parseChunk l = some (streamResponseOf data)) ∧
    (∀ line, jsTrim line = "" →
      ApiContentGenerator.processStreamLine parseChunk line = none) ∧
    (∀ line, jsStartsWith line "data: " = false →
      ApiContentGenerator.processStreamLine parseChunk line = none) := by
  have hissome : ∀ l, WellFormedFrame parseChunk l →
      (ApiContentGenerator.processStreamLine parseChunk l).isSome = true := by
    intro l hl
    obtain ⟨d0, hd0, -⟩ := hl.2
    rw [processStreamLine_eq_of_wellFormed hl d0 hd0]
    rfl
  have hsplit : ApiContentGenerator.convertApiStreamToGemini parseChunk (ws1 ++ bad :: ws2) =
      ApiContentGenerator.convertApiStreamToGemini parseChunk ws1 ++
        ApiContentGenerator.convertApiStreamToGemini parseChunk ws2 := by
    unfold ApiContentGenerator.convertApiStreamToGemini
    rw [List.filterMap_append,
      List.filterMap_cons_none (processStreamLine_drop_of_parse_fail hbadpre hbadparse)]
  refine ⟨hsplit, ?_, ?_, ?_, ?_⟩
  · rw [hsplit, List.length_append]
    unfold ApiContentGenerator.convertApiStreamToGemini
    rw [length_filterMap_of_isSome _ ws1 (fun l hl => hissome l (h1 l hl)),
      length_filterMap_of_isSome _ ws2 (fun l hl => hissome l (h2 l hl))]
  · intro l hl data hdata
    cases List.mem_append.mp hl with
    | inl hmem => exact processStreamLine_eq_of_wellFormed (h1 l hmem) data hdata
    | inr hmem => exact processStreamLine_eq_of_wellFormed (h2 l hmem) data hdata
  · intro line h
    unfold ApiContentGenerator.processStreamLine
    rw [if_pos (beq_iff_eq.mpr h)]
  · intro line h
    unfold ApiContentGenerator.processStreamLine
    by_cases ht : (jsTrim line == "") = true
    · rw [if_pos ht]
    · rw [if_neg ht, if_neg (by rw [h]; decide)]

/-- C2 witness: one well-formed frame, then a prefixed line whose payload
does not parse, then one terminal well-formed frame yield exactly two
chunks, in order. -/
theorem claim_C2_stream_witness :
    ApiContentGenerator.convertApiStreamToGemini streamDemoParse
        (["data: one"] ++ "data: ???" :: ["data: two"]) =
      ApiContentGenerator.convertApiStreamToGemini streamDemoParse ["data: one"] ++
        ApiContentGenerator.convertApiStreamToGemini streamDemoParse ["data: two"] ∧
    (ApiContentGenerator.convertApiStreamToGemini streamDemoParse
        (["data: one"] ++ "data: ???" :: ["data: two"])).length = 1 + 1 := by
  have hw1 : ∀ l ∈ ["data: one"], WellFormedFrame streamDemoParse l := by
    intro l hl
    rw [List.mem_singleton] at hl
    subst hl
    exact ⟨by decide, { chunk := "Hello", finished := false }, by decide, by decide⟩
  have hw2 : ∀ l ∈ ["data: two"], WellFormedFrame streamDemoParse l := by
    intro l hl
    rw [List.mem_singleton] at hl
    subst hl
    exact ⟨by decide, { chunk := " world", finished := true }, by decide, by decide⟩
  have h := claim_C2_stream streamDemoParse ["data: one"] ["data: two"] "data: ???"
    hw1 hw2 (by decide) (by decide)
  exact ⟨h.1, h.2.1⟩

end VoyagerCLI
